import Mathlib

/-!
Verification development for `gfootball/env/__init__.py`
(gfootball-gymnasium-pettingzoo).

The file shallowly embeds the environment-construction pipeline of
`create_environment` and its helpers (`_process_reward_wrappers`,
`_process_representation_wrappers`, `_apply_output_wrappers`,
`_apply_state_wrappers` and the attached `state` accessor), and proves the
spec claims about roster/reduction decisions, stage ordering, configuration
merging, error handling and the `simplev1` state accessor.

Modelling conventions:
* wrapper application is modelled as a list of `Stage` labels in the order
  the wrappers are applied around the raw simulator handle (innermost
  first); applying a wrapper appends its label;
* Python `raise`/failed `assert` during construction is modelled with
  `Except ConfigError`;
* the external collaborators (`config.Config`, `football_env.FootballEnv`,
  the wrapper classes themselves) are opaque: only their installation is
  modelled, exactly as `__init__.py` decides it;
* `ScenarioConfig` is the already-resolved scenario record
  (`config.Config({"level": env_name}).ScenarioConfig()`), an input here;
* numeric observation entries are modelled as rationals; Python truthiness
  of an integer is `≠ 0`.
-/

namespace GFootball

/-- Values storable in the configuration dictionary passed to
`config.Config`. -/
inductive ConfigValue where
  | bool (b : Bool)
  | str (s : String)
  | int (n : Int)
  | strList (l : List String)
  deriving DecidableEq

/-- Python truthiness of a configuration value. -/
def ConfigValue.truthy : ConfigValue → Bool
  | .bool b => b
  | .str s => s != ""
  | .int n => n != 0
  | .strList l => !l.isEmpty

/-- Lookup in an association-list model of a Python dict where a later
binding for a key overwrites an earlier one. -/
def dlookup {α : Type} : List (String × α) → String → Option α
  | [], _ => none
  | p :: l, k =>
    match dlookup l k with
    | some v => some v
    | none => if p.1 == k then some p.2 else none

/-- Scenario capabilities, as returned by
`config.Config({"level": env_name}).ScenarioConfig()`. -/
structure ScenarioConfig where
  controllable_left_players : Nat
  controllable_right_players : Nat
  control_all_players : Bool
  deriving DecidableEq

/-- Outcome of the roster/reduction decision of `create_environment`
(lines 268-288): the per-side player counts written into the primary
`"agent:left_players=L,right_players=R"` spec, and whether the
`MultiAgentToSingleAgent` wrapper is enabled. -/
structure RosterDecision where
  left : Nat
  right : Nat
  reduce : Bool
  deriving DecidableEq

/-- The roster/reduction decision: mirrors the
`multiagent_to_singleagent` block of `create_environment`.  Python's
`x if number_of_left_players_agent_controls else 0` is truthiness on an
integer, i.e. `≠ 0`. -/
def rosterDecision (scenario_config : ScenarioConfig)
    (number_of_left_players_agent_controls number_of_right_players_agent_controls : Nat) :
    RosterDecision :=
  if scenario_config.control_all_players then
    if number_of_left_players_agent_controls ∈ ([0, 1] : List Nat) ∧
        number_of_right_players_agent_controls ∈ ([0, 1] : List Nat) then
      { left := if number_of_left_players_agent_controls ≠ 0 then
          scenario_config.controllable_left_players else 0,
        right := if number_of_right_players_agent_controls ≠ 0 then
          scenario_config.controllable_right_players else 0,
        reduce := true }
    else
      { left := number_of_left_players_agent_controls,
        right := number_of_right_players_agent_controls,
        reduce := false }
  else
    { left := number_of_left_players_agent_controls,
      right := number_of_right_players_agent_controls,
      reduce := false }

/-- The primary agent PlayerSpec string
`"agent:left_players=%d,right_players=%d" % (L, R)`. -/
def agentSpec (l r : Nat) : String :=
  "agent:left_players=" ++ toString l ++ ",right_players=" ++ toString r

/-- Labels for the wrapper stages `create_environment` can install,
innermost first. -/
inductive Stage where
  | multiAgentToSingleAgent
  | periodicDumpWriter
  | checkpointReward
  | pixelsState (gray : Bool)
  | simple115State (fixed : Bool)
  | simpleState
  | smm
  | actionMask
  | singleAgentObservation
  | singleAgentReward
  | frameStack
  | getState
  deriving DecidableEq

/-- Construction-time failures.  The failed `assert "scoring" in
rewards.split(",")` and the `ValueError` for an unsupported representation
are both construction failures; the spec's taxonomy calls them
`ConfigError`. -/
inductive ConfigError where
  | missingScoringReward
  | unsupportedRepresentation (representation : String)
  deriving DecidableEq

/-- The user-visible message attached to a construction failure; the
`ValueError` message is `f"Unsupported representation: {representation}"`
(a failed `assert` carries no message). -/
def ConfigError.message : ConfigError → String
  | .missingScoringReward => ""
  | .unsupportedRepresentation r => "Unsupported representation: " ++ r

/-- Splitting a character list at every occurrence of a separator
character. -/
def splitChar (sep : Char) : List Char → List (List Char)
  | [] => [[]]
  | c :: cs =>
    if c = sep then [] :: splitChar sep cs
    else
      match splitChar sep cs with
      | [] => [[c]]
      | h :: t => (c :: h) :: t

/-- Python `s.split(sep)` for a one-character separator (used as
`rewards.split(",")`). -/
def pySplit (s : String) (sep : Char) : List String :=
  (splitChar sep s.data).map (fun l => ⟨l⟩)

/-- Python `s.startswith(pre)`. -/
def pyStartsWith (s pre : String) : Bool :=
  pre.data.isPrefixOf s.data

/-- Whether `sub` occurs as a contiguous sublist. -/
def listContainsSub (sub : List Char) : List Char → Bool
  | [] => sub.isEmpty
  | c :: t => sub.isPrefixOf (c :: t) || listContainsSub sub t

/-- Python substring containment `sub in s` (for `"gray" in
representation`). -/
def strContains (s sub : String) : Bool := listContainsSub sub.data s.data

/-- Mirror of `_process_reward_wrappers`: asserts that `"scoring"` is in
the comma-separated rewards and installs `CheckpointRewardWrapper` when
`"checkpoints"` is. -/
def processRewardWrappers (stages : List Stage) (rewards : String) :
    Except ConfigError (List Stage) :=
  if "scoring" ∈ pySplit rewards ',' then
    .ok (if "checkpoints" ∈ pySplit rewards ',' then
      stages ++ [.checkpointReward] else stages)
  else
    .error .missingScoringReward

/-- Mirror of `_process_representation_wrappers`: the representation
dispatch (note: `representation.startswith("pixels")`, substring test
`"gray" in representation`, exact equality elsewhere, `raise ValueError`
otherwise). -/
def processRepresentationWrappers (stages : List Stage) (representation : String) :
    Except ConfigError (List Stage) :=
  if pyStartsWith representation "pixels" then
    .ok (stages ++ [.pixelsState (strContains representation "gray")])
  else if representation = "simple115" then
    .ok (stages ++ [.simple115State false])
  else if representation = "simple115v2" then
    .ok (stages ++ [.simple115State true])
  else if representation = "simplev1" then
    .ok (stages ++ [.simpleState])
  else if representation = "extracted" then
    .ok (stages ++ [.smm])
  else if representation = "raw" then
    .ok stages
  else
    .error (.unsupportedRepresentation representation)

/-- Mirror of `_apply_output_wrappers`: reward wrappers, representation
wrappers, optional `ActionMaskWrapper`, optional single-agent wrappers
(observation squeeze skipped for `"raw"`), optional `FrameStack`, final
`GetStateWrapper`. -/
def applyOutputWrappers (stages : List Stage) (rewards representation : String)
    (apply_single_agent_wrappers stacked action_mask : Bool) :
    Except ConfigError (List Stage) :=
  match processRewardWrappers stages rewards with
  | .error e => .error e
  | .ok s1 =>
    match processRepresentationWrappers s1 representation with
    | .error e => .error e
    | .ok s2 =>
      let s3 := if action_mask then s2 ++ [.actionMask] else s2
      let s4 := if apply_single_agent_wrappers then
          (if representation != "raw" then s3 ++ [.singleAgentObservation] else s3)
            ++ [.singleAgentReward]
        else s3
      let s5 := if stacked then s4 ++ [.frameStack] else s4
      .ok (s5 ++ [.getState])

/-- Arguments of `create_environment` that the modelled logic depends on.
`scenario_config` is the resolved `ScenarioConfig` for `env_name` (the
`ScenarioResolver` collaborator). -/
structure Args where
  stacked : Bool
  representation : String
  rewards : String
  write_goal_dumps : Bool
  write_full_episode_dumps : Bool
  render : Bool
  write_video : Bool
  dump_frequency : Int
  logdir : String
  extra_players : Option (List String)
  number_of_left_players_agent_controls : Nat
  number_of_right_players_agent_controls : Nat
  other_config_options : List (String × ConfigValue)
  scenario_config : ScenarioConfig
  level : String

/-- The final `players` list: the primary agent spec from the roster
decision followed by `extra_players` when given. -/
def playersList (a : Args) : List String :=
  (agentSpec
    (rosterDecision a.scenario_config a.number_of_left_players_agent_controls
      a.number_of_right_players_agent_controls).left
    (rosterDecision a.scenario_config a.number_of_left_players_agent_controls
      a.number_of_right_players_agent_controls).right) ::
  (match a.extra_players with
   | some l => l
   | none => [])

/-- The `config_values` dict built from the named arguments before the
override update. -/
def config_values (a : Args) : List (String × ConfigValue) :=
  [("dump_full_episodes", .bool a.write_full_episode_dumps),
   ("dump_scores", .bool a.write_goal_dumps),
   ("players", .strList (playersList a)),
   ("level", .str a.level),
   ("tracesdir", .str a.logdir),
   ("write_video", .bool a.write_video)]

/-- The configuration after `config_values.update(other_config_options)`:
dict update is modelled by appending the override bindings, with the
later binding for a key winning on lookup. -/
def finalConfig (a : Args) (k : String) : Option ConfigValue :=
  dlookup (config_values a ++ a.other_config_options) k

/-- `c._values.get("action_mask", True)` used as the `action_mask`
keyword, then tested for truthiness by `if action_mask:`. -/
def actionMaskFlag (a : Args) : Bool :=
  (((finalConfig a) "action_mask").getD (.bool true)).truthy

/-- `number_of_left_players_agent_controls +
number_of_right_players_agent_controls == 1`, the
`apply_single_agent_wrappers` argument. -/
def singleAgentFlag (a : Args) : Bool :=
  a.number_of_left_players_agent_controls +
    a.number_of_right_players_agent_controls == 1

/-- The constructed environment as far as assembly decisions go: the
installed wrapper stages innermost first, whether `env.render()` was
triggered at construction, the `players` roster and the reduction flag. -/
structure BuiltEnv where
  stages : List Stage
  immediateRender : Bool
  players : List String
  reduce : Bool
  deriving DecidableEq

/-- Mirror of `create_environment`: roster/reduction decision, optional
`MultiAgentToSingleAgent`, dump/render scheduling, then
`_apply_output_wrappers`.  (`_apply_state_wrappers`, which attaches
attributes rather than wrapping, is modelled separately below.) -/
def create_environment (a : Args) : Except ConfigError BuiltEnv :=
  let rd := rosterDecision a.scenario_config
    a.number_of_left_players_agent_controls a.number_of_right_players_agent_controls
  let stages : List Stage := []
  let stages := if rd.reduce then stages ++ [.multiAgentToSingleAgent] else stages
  let stages := if a.dump_frequency > 1 then stages ++ [.periodicDumpWriter] else stages
  let immediateRender := !(decide (a.dump_frequency > 1)) && a.render
  match applyOutputWrappers stages a.rewards a.representation
      (singleAgentFlag a) a.stacked (actionMaskFlag a) with
  | .error e => .error e
  | .ok s =>
    .ok { stages := s, immediateRender := immediateRender,
          players := playersList a, reduce := rd.reduce }

/-- One per-controlled-agent observation dict as consumed by the `state`
accessor of `_apply_state_wrappers`.  Coordinates are rationals; player
indices (`active`, `game_mode`) are naturals (the claims stay inside the
spec's data model, where they are valid indices). -/
structure ObsRecord where
  left_team : List (ℚ × ℚ)
  left_team_direction : List (ℚ × ℚ)
  right_team : List (ℚ × ℚ)
  right_team_direction : List (ℚ × ℚ)
  ball : ℚ × ℚ × ℚ
  ball_direction : ℚ × ℚ × ℚ
  ball_owned_team : Int
  game_mode : Nat
  active : Nat

/-- `do_flatten` on a list of (x, y) pairs. -/
def do_flatten (l : List (ℚ × ℚ)) : List ℚ :=
  (l.map (fun p => [p.1, p.2])).flatten

/-- Row `i` of `np.eye(n)`: the length-`n` one-hot vector at index `i`. -/
def eyeRow (n i : Nat) : List ℚ :=
  (List.range n).map (fun j => if j = i then 1 else 0)

/-- The three independent `if` statements on `ball_owned_team` in
`state`: each appends its block exactly when its own test holds. -/
def ballOwnedEncoding (t : Int) : List ℚ :=
  (if t = -1 then ([1, 0, 0] : List ℚ) else []) ++
  (if t = 0 then ([0, 1, 0] : List ℚ) else []) ++
  (if t = 1 then ([0, 0, 1] : List ℚ) else [])

/-- Mirror of the `state` accessor installed by `_apply_state_wrappers`:
built from `observation_dicts[0]` (failing on an empty frame), with one
active-player one-hot of length `len(first_obs_dict["left_team"])` per
observation dict. -/
def stateVec : List ObsRecord → Option (List ℚ)
  | [] => none
  | first_obs_dict :: rest =>
    some (do_flatten first_obs_dict.left_team ++
      do_flatten first_obs_dict.left_team_direction ++
      do_flatten first_obs_dict.right_team ++
      do_flatten first_obs_dict.right_team_direction ++
      [first_obs_dict.ball.1, first_obs_dict.ball.2.1, first_obs_dict.ball.2.2] ++
      [first_obs_dict.ball_direction.1, first_obs_dict.ball_direction.2.1,
        first_obs_dict.ball_direction.2.2] ++
      ballOwnedEncoding first_obs_dict.ball_owned_team ++
      eyeRow 7 first_obs_dict.game_mode ++
      (((first_obs_dict :: rest).map ObsRecord.active).map
        (eyeRow first_obs_dict.left_team.length)).flatten)

/-- Ball-ownership one-hot as the spec words it: `[1,0,0]` if none,
`[0,1,0]` if left, `[0,0,1]` if right (mutually exclusive cases). -/
def specBallOwnership (t : Int) : List ℚ :=
  if t = -1 then [1, 0, 0] else if t = 0 then [0, 1, 0] else [0, 0, 1]

/-- Game-mode one-hot as the spec words it: row `gm` of the 7×7 identity
matrix. -/
def specGameModeOneHot (gm : Fin 7) : List ℚ :=
  List.ofFn (fun j => (1 : Matrix (Fin 7) (Fin 7) ℚ) gm j)

/-- The `simplev1` state vector as the spec words it (§4.5 items 1-6),
built from the first controlled-agent's record, with one active-player
one-hot of length `n1` appended per controlled agent in the frame. -/
def specSimpleV1 (first : ObsRecord) (frame : List ObsRecord) (gm : Fin 7) : List ℚ :=
  do_flatten first.left_team ++
  do_flatten first.left_team_direction ++
  do_flatten first.right_team ++
  do_flatten first.right_team_direction ++
  [first.ball.1, first.ball.2.1, first.ball.2.2] ++
  [first.ball_direction.1, first.ball_direction.2.1, first.ball_direction.2.2] ++
  specBallOwnership first.ball_owned_team ++
  specGameModeOneHot gm ++
  (frame.map (fun o => eyeRow first.left_team.length o.active)).flatten

/-- Attribute values installed by `_apply_state_wrappers`. -/
inductive AttrVal where
  | simplev1StateSpaceProp
  | simplev1StateMethod
  deriving DecidableEq

/-- The attribute dictionary of the environment's class object
(`env.__class__.__dict__`), shared by every instance of that class. -/
structure ClassAttrs where
  attrs : List (String × AttrVal)
  deriving DecidableEq

/-- The instance attribute dictionary (`env.__dict__`) of one environment
object. -/
structure EnvObj where
  attrs : List (String × AttrVal)
  deriving DecidableEq

/-- Python `setattr`: a later binding for the same key overwrites
(modelled by appending, with `dlookup` taking the latest binding). -/
def setAttr (l : List (String × AttrVal)) (k : String) (v : AttrVal) :
    List (String × AttrVal) :=
  l ++ [(k, v)]

/-- Mirror of `_apply_state_wrappers`: only for `"simplev1"` it sets
`env.__class__.state_space = property(state_space)` (a class attribute)
and `env.state = types.MethodType(state, env)` (an instance attribute). -/
def applyStateWrappers (cls : ClassAttrs) (env : EnvObj) (representation : String) :
    ClassAttrs × EnvObj :=
  if representation ∈ ["simplev1"] then
    ({ attrs := setAttr cls.attrs "state_space" .simplev1StateSpaceProp },
     { attrs := setAttr env.attrs "state" .simplev1StateMethod })
  else
    (cls, env)

/-- Python attribute lookup for the attributes in play: the instance
dictionary first, then the class. -/
def getAttrOf (cls : ClassAttrs) (env : EnvObj) (name : String) : Option AttrVal :=
  match dlookup env.attrs name with
  | some v => some v
  | none => dlookup cls.attrs name

/-! ## Derived form of the assembled pipeline -/

/-- Optional wrapper stage: `[x]` when the installation condition holds,
else nothing. -/
def optStage (c : Bool) (x : Stage) : List Stage :=
  if c then [x] else []

/-- The stage contributed by the representation dispatch for a supported
representation (empty for `"raw"` and for unsupported strings). -/
def reprTail (representation : String) : List Stage :=
  if pyStartsWith representation "pixels" then
    [.pixelsState (strContains representation "gray")]
  else if representation = "simple115" then [.simple115State false]
  else if representation = "simple115v2" then [.simple115State true]
  else if representation = "simplev1" then [.simpleState]
  else if representation = "extracted" then [.smm]
  else []

/-- A representation string accepted by the dispatch of
`_process_representation_wrappers`. -/
def supportedRepresentation (representation : String) : Prop :=
  pyStartsWith representation "pixels" = true ∨ representation = "simple115" ∨
    representation = "simple115v2" ∨ representation = "simplev1" ∨
    representation = "extracted" ∨ representation = "raw"

instance (r : String) : Decidable (supportedRepresentation r) :=
  inferInstanceAs (Decidable (_ ∨ _))

/-- The full assembled stage list, innermost wrapper first, in
append-normal form. -/
def expectedStages (a : Args) : List Stage :=
  optStage (rosterDecision a.scenario_config a.number_of_left_players_agent_controls
      a.number_of_right_players_agent_controls).reduce .multiAgentToSingleAgent ++
  (optStage (decide (a.dump_frequency > 1)) .periodicDumpWriter ++
  (optStage (decide ("checkpoints" ∈ pySplit a.rewards ',')) .checkpointReward ++
  (reprTail a.representation ++
  (optStage (actionMaskFlag a) .actionMask ++
  (optStage (singleAgentFlag a && (a.representation != "raw")) .singleAgentObservation ++
  (optStage (singleAgentFlag a) .singleAgentReward ++
  (optStage a.stacked .frameStack ++ [.getState])))))))

lemma ite_append_optStage_bool (l : List Stage) (c : Bool) (x : Stage) :
    (if c then l ++ [x] else l) = l ++ optStage c x := by
  cases c <;> simp [optStage]

lemma decide_bool_eq (b : Bool) : decide (b = true) = b := by
  cases b <;> rfl

lemma ite_append_optStage_prop (l : List Stage) (p : Prop) [Decidable p] (x : Stage) :
    (if p then l ++ [x] else l) = l ++ optStage (decide p) x := by
  by_cases h : p <;> simp [h, optStage]

lemma processRepresentationWrappers_eq (stages : List Stage) (r : String) :
    processRepresentationWrappers stages r =
      if supportedRepresentation r then .ok (stages ++ reprTail r)
      else .error (.unsupportedRepresentation r) := by
  by_cases h1 : pyStartsWith r "pixels" = true
  · have hsup : supportedRepresentation r := Or.inl h1
    simp only [processRepresentationWrappers, reprTail, if_pos h1, if_pos hsup]
  · by_cases h2 : r = "simple115"
    · have hsup : supportedRepresentation r := Or.inr (Or.inl h2)
      simp only [processRepresentationWrappers, reprTail, if_neg h1, if_pos h2, if_pos hsup]
    · by_cases h3 : r = "simple115v2"
      · have hsup : supportedRepresentation r := Or.inr (Or.inr (Or.inl h3))
        simp only [processRepresentationWrappers, reprTail, if_neg h1, if_neg h2,
          if_pos h3, if_pos hsup]
      · by_cases h4 : r = "simplev1"
        · have hsup : supportedRepresentation r := Or.inr (Or.inr (Or.inr (Or.inl h4)))
          simp only [processRepresentationWrappers, reprTail, if_neg h1, if_neg h2,
            if_neg h3, if_pos h4, if_pos hsup]
        · by_cases h5 : r = "extracted"
          · have hsup : supportedRepresentation r :=
              Or.inr (Or.inr (Or.inr (Or.inr (Or.inl h5))))
            simp only [processRepresentationWrappers, reprTail, if_neg h1, if_neg h2,
              if_neg h3, if_neg h4, if_pos h5, if_pos hsup]
          · by_cases h6 : r = "raw"
            · have hsup : supportedRepresentation r :=
                Or.inr (Or.inr (Or.inr (Or.inr (Or.inr h6))))
              simp only [processRepresentationWrappers, reprTail, if_neg h1, if_neg h2,
                if_neg h3, if_neg h4, if_neg h5, if_pos h6, if_pos hsup,
                List.append_nil]
            · have hns : ¬ supportedRepresentation r := by
                simp [supportedRepresentation, h1, h2, h3, h4, h5, h6]
              simp only [processRepresentationWrappers, if_neg h1, if_neg h2,
                if_neg h3, if_neg h4, if_neg h5, if_neg h6, if_neg hns]

lemma applyOutputWrappers_eq (stages : List Stage) (rewards representation : String)
    (sa st am : Bool) :
    applyOutputWrappers stages rewards representation sa st am =
      if "scoring" ∈ pySplit rewards ',' then
        if supportedRepresentation representation then
          .ok (stages ++
            (optStage (decide ("checkpoints" ∈ pySplit rewards ',')) .checkpointReward ++
            (reprTail representation ++
            (optStage am .actionMask ++
            (optStage (sa && (representation != "raw")) .singleAgentObservation ++
            (optStage sa .singleAgentReward ++
            (optStage st .frameStack ++ [.getState])))))))
        else .error (.unsupportedRepresentation representation)
      else .error .missingScoringReward := by
  by_cases hs : "scoring" ∈ pySplit rewards ','
  · by_cases hr : supportedRepresentation representation
    · simp only [applyOutputWrappers, processRewardWrappers, if_pos hs,
        processRepresentationWrappers_eq, if_pos hr]
      by_cases hc : "checkpoints" ∈ pySplit rewards ',' <;>
        cases am <;> cases sa <;> cases st <;>
        by_cases hraw : representation = "raw" <;>
          simp_all [optStage, List.append_assoc]
    · simp only [applyOutputWrappers, processRewardWrappers, if_pos hs,
        processRepresentationWrappers_eq, if_neg hr]
  · simp [applyOutputWrappers, processRewardWrappers, hs]

/-- Closed form of `create_environment`: the reward precondition is
checked first, then the representation dispatch; on success the stage
list is `expectedStages`. -/
lemma create_environment_eq (a : Args) :
    create_environment a =
      if "scoring" ∈ pySplit a.rewards ',' then
        if supportedRepresentation a.representation then
          .ok { stages := expectedStages a,
                immediateRender := !(decide (a.dump_frequency > 1)) && a.render,
                players := playersList a,
                reduce := (rosterDecision a.scenario_config
                  a.number_of_left_players_agent_controls
                  a.number_of_right_players_agent_controls).reduce }
        else .error (.unsupportedRepresentation a.representation)
      else .error .missingScoringReward := by
  unfold create_environment
  simp only [ite_append_optStage_bool, ite_append_optStage_prop, decide_bool_eq,
    applyOutputWrappers_eq]
  by_cases hs : "scoring" ∈ pySplit a.rewards ','
  · by_cases hr : supportedRepresentation a.representation
    · simp [hs, hr, expectedStages, List.append_assoc]
    · simp [hs, hr]
  · simp [hs]

/-! ## Stage ordering -/

/-- Position of each wrapper group in the order the wrappers are applied
around the raw simulator handle (equivalently, the order in which each
stage processes the simulator's per-step output, innermost first):
`MultiAgentToSingleAgent` (0), `PeriodicDumpWriter` (1), reward shaping
(2), representation (3), action mask (4), single-agent observation
squeeze (5), single-agent reward squeeze (6), frame stacking (7), state
accessor (8). -/
def stageRank : Stage → Nat
  | .multiAgentToSingleAgent => 0
  | .periodicDumpWriter => 1
  | .checkpointReward => 2
  | .pixelsState _ => 3
  | .simple115State _ => 3
  | .simpleState => 3
  | .smm => 3
  | .actionMask => 4
  | .singleAgentObservation => 5
  | .singleAgentReward => 6
  | .frameStack => 7
  | .getState => 8

/-- The stages of a list appear in strictly increasing rank order. -/
def RankSorted (l : List Stage) : Prop :=
  l.Pairwise (fun s t => stageRank s < stageRank t)

lemma mem_optStage {s x : Stage} {c : Bool} :
    s ∈ optStage c x ↔ (c = true ∧ s = x) := by
  cases c <;> simp [optStage]

lemma optStage_length (c : Bool) (x : Stage) : (optStage c x).length ≤ 1 := by
  cases c <;> simp [optStage]

lemma reprTail_rank {s : Stage} {r : String} (h : s ∈ reprTail r) :
    stageRank s = 3 := by
  unfold reprTail at h
  split at h
  · simp at h; subst h; rfl
  · split at h
    · simp at h; subst h; rfl
    · split at h
      · simp at h; subst h; rfl
      · split at h
        · simp at h; subst h; rfl
        · split at h
          · simp at h; subst h; rfl
          · simp at h

lemma reprTail_length (r : String) : (reprTail r).length ≤ 1 := by
  unfold reprTail
  split
  · simp
  · split
    · simp
    · split
      · simp
      · split
        · simp
        · split <;> simp

/-- Appending a constant-rank segment of at most one stage in front of a
rank-sorted list whose stages all have strictly larger rank. -/
lemma rankSorted_seg_append {l m : List Stage} {j : Nat}
    (hl : ∀ s ∈ l, stageRank s = j) (hlen : l.length ≤ 1)
    (hm : RankSorted m) (hmj : ∀ t ∈ m, j < stageRank t) :
    RankSorted (l ++ m) ∧ ∀ t ∈ l ++ m, j ≤ stageRank t := by
  constructor
  · refine List.pairwise_append.mpr ⟨?_, hm, ?_⟩
    · match l, hlen with
      | [], _ => exact List.Pairwise.nil
      | [x], _ => exact List.pairwise_singleton _ _
    · intro s hs t ht
      rw [hl s hs]
      exact hmj t ht
  · intro t ht
    rcases List.mem_append.mp ht with h | h
    · exact (hl t h).ge
    · exact le_of_lt (hmj t h)

lemma rankSorted_optStage_append {c : Bool} {x : Stage} {m : List Stage}
    (hm : RankSorted m) (hmj : ∀ t ∈ m, stageRank x < stageRank t) :
    RankSorted (optStage c x ++ m) ∧
      ∀ t ∈ optStage c x ++ m, stageRank x ≤ stageRank t :=
  rankSorted_seg_append (fun s hs => by rw [(mem_optStage.mp hs).2])
    (optStage_length c x) hm hmj

/-- The assembled pipeline is always ordered by `stageRank`. -/
lemma rankSorted_expectedStages (a : Args) : RankSorted (expectedStages a) := by
  have h8 : RankSorted [Stage.getState] ∧
      ∀ t ∈ [Stage.getState], 8 ≤ stageRank t := by
    refine ⟨List.pairwise_singleton _ _, ?_⟩
    intro t ht
    rw [List.mem_singleton.mp ht]
    decide
  have h7 := rankSorted_optStage_append (c := a.stacked) (x := .frameStack)
    h8.1 (fun t ht => lt_of_lt_of_le (by decide) (h8.2 t ht))
  have h6 := rankSorted_optStage_append (c := singleAgentFlag a) (x := .singleAgentReward)
    h7.1 (fun t ht => lt_of_lt_of_le (by decide) (h7.2 t ht))
  have h5 := rankSorted_optStage_append
    (c := singleAgentFlag a && (a.representation != "raw")) (x := .singleAgentObservation)
    h6.1 (fun t ht => lt_of_lt_of_le (by decide) (h6.2 t ht))
  have h4 := rankSorted_optStage_append (c := actionMaskFlag a) (x := .actionMask)
    h5.1 (fun t ht => lt_of_lt_of_le (by decide) (h5.2 t ht))
  have h3 := rankSorted_seg_append (l := reprTail a.representation) (j := 3)
    (fun s hs => reprTail_rank hs) (reprTail_length _)
    h4.1 (fun t ht => lt_of_lt_of_le (by decide) (h4.2 t ht))
  have h2 := rankSorted_optStage_append
    (c := decide ("checkpoints" ∈ pySplit a.rewards ',')) (x := .checkpointReward)
    h3.1 (fun t ht => lt_of_lt_of_le (by decide) (h3.2 t ht))
  have h1 := rankSorted_optStage_append
    (c := decide (a.dump_frequency > 1)) (x := .periodicDumpWriter)
    h2.1 (fun t ht => lt_of_lt_of_le (by decide) (h2.2 t ht))
  have h0 := rankSorted_optStage_append
    (c := (rosterDecision a.scenario_config a.number_of_left_players_agent_controls
      a.number_of_right_players_agent_controls).reduce) (x := .multiAgentToSingleAgent)
    h1.1 (fun t ht => lt_of_lt_of_le (by decide) (h1.2 t ht))
  exact h0.1

/-! ## Shared helper lemmas -/

lemma create_ok_dest {a : Args} {b : BuiltEnv} (h : create_environment a = .ok b) :
    b.stages = expectedStages a ∧
    b.immediateRender = (!(decide (a.dump_frequency > 1)) && a.render) ∧
    b.players = playersList a ∧
    b.reduce = (rosterDecision a.scenario_config a.number_of_left_players_agent_controls
      a.number_of_right_players_agent_controls).reduce := by
  have e := create_environment_eq a
  rw [h] at e
  split_ifs at e with hs hr
  · rw [Except.ok.injEq] at e
    rw [e]
    exact ⟨rfl, rfl, rfl, rfl⟩

lemma dlookup_append {α : Type} (l m : List (String × α)) (k : String) :
    dlookup (l ++ m) k =
      match dlookup m k with
      | some v => some v
      | none => dlookup l k := by
  induction l with
  | nil =>
    cases h : dlookup m k <;> simp [dlookup, h]
  | cons p l ih =>
    simp only [List.cons_append, dlookup, List.append_eq]
    rw [ih]
    cases h : dlookup m k <;> simp [dlookup]

lemma not_mem_reprTail {s : Stage} {r : String} (h : stageRank s ≠ 3) :
    s ∉ reprTail r :=
  fun hm => h (reprTail_rank hm)

/-! ## Claim C1: roster counts and the reduction decision -/

/-- C1: `reduce` is set iff `control_all_players` holds and both requested
counts are in {0, 1}; in reduction mode the roster counts are the
scenario's full controllable counts with 0 substituted on a side whose
requested count is 0; otherwise the roster counts are the requested
counts verbatim. -/
theorem roster_reduction_decision (sc : ScenarioConfig) (nL nR : Nat) :
    ((rosterDecision sc nL nR).reduce = true ↔
      (sc.control_all_players = true ∧ (nL = 0 ∨ nL = 1) ∧ (nR = 0 ∨ nR = 1)))
    ∧ ((rosterDecision sc nL nR).reduce = true →
        (rosterDecision sc nL nR).left =
          (if nL = 0 then 0 else sc.controllable_left_players) ∧
        (rosterDecision sc nL nR).right =
          (if nR = 0 then 0 else sc.controllable_right_players))
    ∧ ((rosterDecision sc nL nR).reduce = false →
        (rosterDecision sc nL nR).left = nL ∧ (rosterDecision sc nL nR).right = nR) := by
  unfold rosterDecision
  by_cases hc : sc.control_all_players = true
  · by_cases hm : nL ∈ ([0, 1] : List Nat) ∧ nR ∈ ([0, 1] : List Nat)
    · have hm2 : (nL = 0 ∨ nL = 1) ∧ (nR = 0 ∨ nR = 1) := by
        exact ⟨by simpa using hm.1, by simpa using hm.2⟩
      rw [if_pos hc, if_pos hm]
      refine ⟨⟨fun _ => ⟨hc, hm2.1, hm2.2⟩, fun _ => rfl⟩, fun _ => ⟨?_, ?_⟩,
        fun h => Bool.noConfusion h⟩
      · by_cases h0 : nL = 0 <;> simp [h0]
      · by_cases h0 : nR = 0 <;> simp [h0]
    · rw [if_pos hc, if_neg hm]
      refine ⟨⟨fun h => Bool.noConfusion h, fun ⟨_, hL, hR⟩ => ?_⟩,
        fun h => Bool.noConfusion h, fun _ => ⟨rfl, rfl⟩⟩
      exact absurd ⟨by simpa using hL, by simpa using hR⟩ hm
  · rw [if_neg hc]
    exact ⟨⟨fun h => Bool.noConfusion h, fun ⟨h, _, _⟩ => absurd h hc⟩,
      fun h => Bool.noConfusion h, fun _ => ⟨rfl, rfl⟩⟩

/-- C1 witness: a scenario with `control_all_players` and controllable
counts (3, 2), requested (1, 0): reduction mode with roster counts
(3, 0). -/
theorem roster_reduction_decision_witness :
    (rosterDecision ⟨3, 2, true⟩ 1 0).reduce = true ∧
    (rosterDecision ⟨3, 2, true⟩ 1 0).left = 3 ∧
    (rosterDecision ⟨3, 2, true⟩ 1 0).right = 0 := by
  have h := roster_reduction_decision ⟨3, 2, true⟩ 1 0
  have hred : (rosterDecision ⟨3, 2, true⟩ 1 0).reduce = true :=
    h.1.mpr ⟨rfl, Or.inr rfl, Or.inl rfl⟩
  have hlr := h.2.1 hred
  exact ⟨hred, by simpa using hlr.1, by simpa using hlr.2⟩

/-! ## Claim C5: a rewards set without "scoring" fails construction -/

/-- C5: whenever the comma-separated rewards components do not contain
`"scoring"`, `create_environment` fails with the missing-scoring
`ConfigError`, for every representation and roster combination. -/
theorem missing_scoring_fails (a : Args)
    (h : "scoring" ∉ pySplit a.rewards ',') :
    create_environment a = .error ConfigError.missingScoringReward := by
  rw [create_environment_eq, if_neg h]

def argsC5w : Args :=
  { stacked := false, representation := "unsupported_repr", rewards := "checkpoints",
    write_goal_dumps := false, write_full_episode_dumps := false, render := false,
    write_video := false, dump_frequency := 1, logdir := "", extra_players := none,
    number_of_left_players_agent_controls := 4, number_of_right_players_agent_controls := 3,
    other_config_options := [], scenario_config := ⟨11, 11, false⟩, level := "test" }

/-- C5 witness: `rewards="checkpoints"` fails with the missing-scoring
error even for an unsupported representation and a (4, 3) roster. -/
theorem missing_scoring_fails_witness :
    create_environment argsC5w = .error ConfigError.missingScoringReward :=
  missing_scoring_fails argsC5w (by decide)

/-! ## Claim C6: unsupported representation strings -/

def argsC6c : Args :=
  { stacked := false, representation := "pixelsx", rewards := "scoring",
    write_goal_dumps := false, write_full_episode_dumps := false, render := false,
    write_video := false, dump_frequency := 1, logdir := "", extra_players := none,
    number_of_left_players_agent_controls := 1, number_of_right_players_agent_controls := 0,
    other_config_options := [], scenario_config := ⟨11, 11, false⟩, level := "test" }

/-- C6 counterexample: `"pixelsx"` is outside the supported set
{pixels, pixels_gray, extracted, simple115, simple115v2, simplev1, raw},
yet construction succeeds (the dispatch only tests
`representation.startswith("pixels")`), installing the pixels wrapper. -/
theorem unsupported_representation_counterexample :
    ("pixelsx" ∉ (["pixels", "pixels_gray", "extracted", "simple115", "simple115v2",
      "simplev1", "raw"] : List String)) ∧
    create_environment argsC6c =
      .ok { stages := [.pixelsState false, .actionMask, .singleAgentObservation,
              .singleAgentReward, .getState],
            immediateRender := false,
            players := ["agent:left_players=1,right_players=0"], reduce := false } := by
  exact ⟨by decide, rfl⟩

/-- C6 (amended): for every representation string that does not start
with `"pixels"` and is not one of simple115/simple115v2/simplev1/
extracted/raw, construction (with a valid rewards set, whose check runs
first) fails with a `ConfigError` whose message names the unsupported
representation string. -/
theorem unsupported_representation_fails (a : Args)
    (hs : "scoring" ∈ pySplit a.rewards ',')
    (hp : ¬ pyStartsWith a.representation "pixels" = true)
    (hn : a.representation ∉ (["simple115", "simple115v2", "simplev1", "extracted",
      "raw"] : List String)) :
    create_environment a = .error (.unsupportedRepresentation a.representation) ∧
    (ConfigError.unsupportedRepresentation a.representation).message =
      "Unsupported representation: " ++ a.representation := by
  have hns : ¬ supportedRepresentation a.representation := by
    simp only [List.mem_cons, List.not_mem_nil, or_false, not_or] at hn
    obtain ⟨h1, h2, h3, h4, h5⟩ := hn
    intro hsup
    rcases hsup with h | h | h | h | h | h
    · exact hp h
    · exact h1 h
    · exact h2 h
    · exact h3 h
    · exact h4 h
    · exact h5 h
  rw [create_environment_eq, if_pos hs, if_neg hns]
  exact ⟨rfl, rfl⟩

def argsC6w : Args :=
  { stacked := false, representation := "unsupported_repr", rewards := "scoring",
    write_goal_dumps := false, write_full_episode_dumps := false, render := false,
    write_video := false, dump_frequency := 1, logdir := "", extra_players := none,
    number_of_left_players_agent_controls := 1, number_of_right_players_agent_controls := 0,
    other_config_options := [], scenario_config := ⟨11, 11, false⟩, level := "test" }

/-- C6 witness for the amended claim: `"unsupported_repr"` fails with the
error naming it. -/
theorem unsupported_representation_fails_witness :
    create_environment argsC6w = .error
      (.unsupportedRepresentation "unsupported_repr") ∧
    (ConfigError.unsupportedRepresentation "unsupported_repr").message =
      "Unsupported representation: " ++ "unsupported_repr" := by
  exact unsupported_representation_fails argsC6w (by decide) (by decide) (by decide)

/-! ## Claim C7: the override mapping strictly wins per key -/

/-- C7: in the merged configuration the caller's override mapping is
applied last and strictly wins per key (no deep merge): a key bound in
the override mapping gets the override's value, and any other key keeps
its `config_values` binding (built from the named arguments and their
defaults). -/
theorem config_merge_override_wins (a : Args) (k : String) :
    (∀ v, dlookup a.other_config_options k = some v → finalConfig a k = some v)
    ∧ (dlookup a.other_config_options k = none →
        finalConfig a k = dlookup (config_values a) k) := by
  unfold finalConfig
  rw [dlookup_append]
  constructor
  · intro v hv
    rw [hv]
  · intro hv
    rw [hv]

def argsC7w : Args :=
  { stacked := false, representation := "extracted", rewards := "scoring",
    write_goal_dumps := false, write_full_episode_dumps := false, render := false,
    write_video := false, dump_frequency := 1, logdir := "", extra_players := none,
    number_of_left_players_agent_controls := 1, number_of_right_players_agent_controls := 0,
    other_config_options := [("players", ConfigValue.strList ["bot"]),
      ("level", ConfigValue.str "other")],
    scenario_config := ⟨11, 11, false⟩, level := "test" }

/-- C7 witness: an override of the roster key `"players"` replaces the
built roster, and a key absent from the override (`"tracesdir"`) keeps
its named-argument value. -/
theorem config_merge_override_wins_witness :
    finalConfig argsC7w "players" = some (ConfigValue.strList ["bot"]) ∧
    finalConfig argsC7w "tracesdir" = some (ConfigValue.str "") := by
  constructor
  · exact (config_merge_override_wins argsC7w "players").1 _ rfl
  · rw [(config_merge_override_wins argsC7w "tracesdir").2 rfl]
    rfl

/-! ## Claim C2: processing order of the assembled pipeline -/

def argsC2c : Args :=
  { stacked := true, representation := "extracted", rewards := "scoring,checkpoints",
    write_goal_dumps := false, write_full_episode_dumps := false, render := false,
    write_video := false, dump_frequency := 2, logdir := "", extra_players := none,
    number_of_left_players_agent_controls := 1, number_of_right_players_agent_controls := 0,
    other_config_options := [], scenario_config := ⟨3, 2, true⟩, level := "test" }

def stagesC2c : List Stage :=
  [.multiAgentToSingleAgent, .periodicDumpWriter, .checkpointReward, .smm,
   .actionMask, .singleAgentObservation, .singleAgentReward, .frameStack, .getState]

/-- C2 counterexample: in this assembled pipeline the reward-shaping
stage does NOT precede the scenario-level reducer: the
`MultiAgentToSingleAgent` wrapper is applied (and processes the
simulator's per-step output) strictly before the checkpoint reward
wrapper, so reward shaping sees the already-reduced reward. -/
theorem stage_order_counterexample :
    create_environment argsC2c =
      .ok { stages := stagesC2c, immediateRender := false,
            players := ["agent:left_players=3,right_players=0"], reduce := true } ∧
    Stage.checkpointReward ∈ stagesC2c ∧
    stagesC2c.indexOf Stage.multiAgentToSingleAgent <
      stagesC2c.indexOf Stage.checkpointReward :=
  ⟨rfl, by decide, by decide⟩

/-- C2 (amended): the assembled stage list always follows the order
`MultiAgentToSingleAgent`, dump/render hook, reward shaping,
representation, action mask, single-agent squeezes, frame stacking,
state accessor (`stageRank` strictly increases along the list, and the
list is exactly `expectedStages`); reward shaping therefore operates on
the already-reduced reward, after the scenario-level reduction. -/
theorem stage_order (a : Args) (b : BuiltEnv)
    (h : create_environment a = .ok b) :
    b.stages = expectedStages a ∧ RankSorted b.stages := by
  have hd := (create_ok_dest h).1
  constructor
  · exact hd
  · rw [hd]
    exact rankSorted_expectedStages a

def argsC2w : Args :=
  { stacked := false, representation := "simple115", rewards := "scoring,checkpoints",
    write_goal_dumps := false, write_full_episode_dumps := false, render := true,
    write_video := false, dump_frequency := 5, logdir := "", extra_players := none,
    number_of_left_players_agent_controls := 1, number_of_right_players_agent_controls := 0,
    other_config_options := [("action_mask", ConfigValue.bool false)],
    scenario_config := ⟨4, 0, true⟩, level := "test" }

def builtC2w : BuiltEnv :=
  { stages := [.multiAgentToSingleAgent, .periodicDumpWriter, .checkpointReward,
      .simple115State false, .singleAgentObservation, .singleAgentReward, .getState],
    immediateRender := false,
    players := ["agent:left_players=4,right_players=0"], reduce := true }

/-- C2 witness for the amended claim at a concrete configuration. -/
theorem stage_order_witness :
    builtC2w.stages = expectedStages argsC2w ∧ RankSorted builtC2w.stages :=
  stage_order argsC2w builtC2w rfl

/-! ## Claim C8: single-agent squeeze stages -/

/-- C8: the single-agent reward squeeze is installed iff the total
requested controlled-agent count is exactly 1, and the observation
squeeze is installed iff additionally the representation is not
`"raw"`. -/
theorem single_agent_squeeze (a : Args) (b : BuiltEnv)
    (h : create_environment a = .ok b) :
    (Stage.singleAgentReward ∈ b.stages ↔
      a.number_of_left_players_agent_controls +
        a.number_of_right_players_agent_controls = 1)
    ∧ (Stage.singleAgentObservation ∈ b.stages ↔
      (a.number_of_left_players_agent_controls +
        a.number_of_right_players_agent_controls = 1
        ∧ a.representation ≠ "raw")) := by
  rw [(create_ok_dest h).1]
  have hr1 : Stage.singleAgentReward ∉ reprTail a.representation :=
    not_mem_reprTail (by decide)
  have hr2 : Stage.singleAgentObservation ∉ reprTail a.representation :=
    not_mem_reprTail (by decide)
  constructor
  · simp [expectedStages, mem_optStage, hr1, singleAgentFlag]
  · simp [expectedStages, mem_optStage, hr2, singleAgentFlag]

def argsC8w : Args :=
  { stacked := false, representation := "raw", rewards := "scoring",
    write_goal_dumps := false, write_full_episode_dumps := false, render := false,
    write_video := false, dump_frequency := 1, logdir := "", extra_players := none,
    number_of_left_players_agent_controls := 1, number_of_right_players_agent_controls := 0,
    other_config_options := [], scenario_config := ⟨11, 11, false⟩, level := "test" }

def builtC8w : BuiltEnv :=
  { stages := [.actionMask, .singleAgentReward, .getState], immediateRender := false,
    players := ["agent:left_players=1,right_players=0"], reduce := false }

/-- C8 witness: with one controlled agent and `"raw"`, the reward
squeeze is installed and the observation squeeze is not. -/
theorem single_agent_squeeze_witness :
    (Stage.singleAgentReward ∈ builtC8w.stages ↔ 1 + 0 = 1) ∧
    (Stage.singleAgentObservation ∈ builtC8w.stages ↔ (1 + 0 = 1 ∧ "raw" ≠ "raw")) :=
  single_agent_squeeze argsC8w builtC8w rfl

/-! ## Claim C9: dump/render scheduling at construction -/

/-- C9: the periodic dump writer is installed iff `dump_frequency > 1`;
an immediate `env.render()` at construction happens iff
`dump_frequency ≤ 1` and `render`; the two never happen for the same
configuration. -/
theorem dump_render_scheduling (a : Args) (b : BuiltEnv)
    (h : create_environment a = .ok b) :
    (Stage.periodicDumpWriter ∈ b.stages ↔ a.dump_frequency > 1)
    ∧ (b.immediateRender = true ↔ (a.dump_frequency ≤ 1 ∧ a.render = true))
    ∧ ¬(Stage.periodicDumpWriter ∈ b.stages ∧ b.immediateRender = true) := by
  obtain ⟨hst, hir, -, -⟩ := create_ok_dest h
  have hp : Stage.periodicDumpWriter ∉ reprTail a.representation :=
    not_mem_reprTail (by decide)
  have h1 : Stage.periodicDumpWriter ∈ b.stages ↔ a.dump_frequency > 1 := by
    rw [hst]
    simp [expectedStages, mem_optStage, hp]
  have h2 : b.immediateRender = true ↔ (a.dump_frequency ≤ 1 ∧ a.render = true) := by
    rw [hir]
    simp [Int.not_lt]
  refine ⟨h1, h2, ?_⟩
  intro ⟨hm, hi⟩
  exact absurd (h1.mp hm) (not_lt.mpr (h2.mp hi).1)

def argsC9w : Args :=
  { stacked := false, representation := "raw", rewards := "scoring",
    write_goal_dumps := false, write_full_episode_dumps := false, render := true,
    write_video := false, dump_frequency := 3, logdir := "", extra_players := none,
    number_of_left_players_agent_controls := 2, number_of_right_players_agent_controls := 0,
    other_config_options := [], scenario_config := ⟨11, 11, false⟩, level := "test" }

def builtC9w : BuiltEnv :=
  { stages := [.periodicDumpWriter, .actionMask, .getState], immediateRender := false,
    players := ["agent:left_players=2,right_players=0"], reduce := false }

/-- C9 witness: `dump_frequency = 3` with `render = true` installs the
periodic writer and does not render immediately. -/
theorem dump_render_scheduling_witness :
    (Stage.periodicDumpWriter ∈ builtC9w.stages ↔ (3 : Int) > 1) ∧
    (builtC9w.immediateRender = true ↔ ((3 : Int) ≤ 1 ∧ true = true)) ∧
    ¬(Stage.periodicDumpWriter ∈ builtC9w.stages ∧ builtC9w.immediateRender = true) :=
  dump_render_scheduling argsC9w builtC9w rfl

/-! ## Claims C3 and C4: the simplev1 state accessor -/

lemma do_flatten_length (l : List (ℚ × ℚ)) : (do_flatten l).length = 2 * l.length := by
  induction l with
  | nil => rfl
  | cons p t ih =>
    simp only [do_flatten, List.map_cons, List.flatten_cons, List.length_append,
      List.length_cons, List.length_nil] at ih ⊢
    omega

lemma eyeRow_length (n i : Nat) : (eyeRow n i).length = n := by
  simp [eyeRow]

lemma ballOwnedEncoding_length {t : Int}
    (h : t = -1 ∨ t = 0 ∨ t = 1) : (ballOwnedEncoding t).length = 3 := by
  rcases h with rfl | rfl | rfl <;> rfl

lemma flatten_eyeRow_length (n : Nat) (xs : List Nat) :
    ((xs.map (eyeRow n)).flatten).length = xs.length * n := by
  induction xs with
  | nil => simp
  | cons x t ih =>
    simp only [List.map_cons, List.flatten_cons, List.length_append, eyeRow_length,
      List.length_cons, ih]
    ring

/-- Total length of the `state` accessor's output:
`2*(|lt|+|ltd|+|rt|+|rtd|) + 3 + 3 + 3 + 7 + n0 * |lt|` where `n0` is the
number of observation records. -/
lemma stateVec_length (first : ObsRecord) (rest : List ObsRecord)
    (h : first.ball_owned_team = -1 ∨ first.ball_owned_team = 0 ∨
      first.ball_owned_team = 1) :
    (stateVec (first :: rest)).map List.length =
      some (2 * first.left_team.length + 2 * first.left_team_direction.length +
        2 * first.right_team.length + 2 * first.right_team_direction.length +
        3 + 3 + 3 + 7 + (rest.length + 1) * first.left_team.length) := by
  simp only [stateVec, Option.map_some', Option.some.injEq, List.length_append,
    do_flatten_length, eyeRow_length, ballOwnedEncoding_length h,
    flatten_eyeRow_length, List.length_map, List.length_cons, List.length_nil]

def rec11 : ObsRecord :=
  { left_team := List.replicate 11 (0, 0),
    left_team_direction := List.replicate 11 (0, 0),
    right_team := List.replicate 11 (0, 0),
    right_team_direction := List.replicate 11 (0, 0),
    ball := (0, 0, 0), ball_direction := (0, 0, 0),
    ball_owned_team := -1, game_mode := 0, active := 0 }

/-- C3 counterexample: for 11-player teams and exactly one controlled
agent, the `state` accessor's vector has length 115
(`4*(11+11) + 1*11 + 16`, as the accessor's own comment says), not
`7*11 + 6*11 + 18 = 161` as the claim states. -/
theorem simplev1_state_length_counterexample :
    (stateVec [rec11]).map List.length ≠ some 161 ∧
    (stateVec [rec11]).map List.length = some 115 := by
  have h : (stateVec [rec11]).map List.length = some 115 := by
    rw [stateVec_length rec11 [] (Or.inl rfl)]
    rfl
  refine ⟨?_, h⟩
  rw [h]
  decide

/-- C3 (amended): for representation `simplev1` with left-team size 11,
right-team size 11 and exactly one controlled agent, the state vector
produced by the installed accessor has length exactly
`4*(11+11) + 1*11 + 16 = 115`. -/
theorem simplev1_state_length (r : ObsRecord)
    (h1 : r.left_team.length = 11) (h2 : r.left_team_direction.length = 11)
    (h3 : r.right_team.length = 11) (h4 : r.right_team_direction.length = 11)
    (ho : r.ball_owned_team = -1 ∨ r.ball_owned_team = 0 ∨ r.ball_owned_team = 1) :
    (stateVec [r]).map List.length = some 115 := by
  rw [stateVec_length r [] ho, h1, h2, h3, h4]
  norm_num

/-- C3 witness for the amended claim. -/
theorem simplev1_state_length_witness :
    (stateVec [rec11]).map List.length = some 115 :=
  simplev1_state_length rec11 rfl rfl rfl rfl (Or.inl rfl)

lemma ballOwnedEncoding_eq_spec {t : Int}
    (h : t = -1 ∨ t = 0 ∨ t = 1) :
    ballOwnedEncoding t = specBallOwnership t := by
  rcases h with rfl | rfl | rfl <;> rfl

lemma eyeRow_eq_specGameMode (m : Nat) (hm : m < 7) :
    eyeRow 7 m = specGameModeOneHot ⟨m, hm⟩ := by
  apply List.ext_getElem
  · simp [eyeRow, specGameModeOneHot]
  · intro i h1 h2
    simp only [eyeRow, specGameModeOneHot, List.getElem_map, List.getElem_range,
      List.getElem_ofFn, Matrix.one_apply]
    by_cases h : i = m
    · simp [h]
    · simp [h, Fin.ext_iff, Ne.symm h]

/-- C4: the `state` accessor realises exactly the spec's simplev1
construction: built from the first record only — flattened left
positions then velocities, right positions then velocities, ball
position and velocity, the {none, left, right} ownership one-hot, the
identity-matrix game-mode row — and finally one active-player one-hot of
length `n1` per controlled agent in the frame. -/
theorem simplev1_state_construction (first : ObsRecord) (rest : List ObsRecord)
    (ho : first.ball_owned_team = -1 ∨ first.ball_owned_team = 0 ∨
      first.ball_owned_team = 1)
    (hm : first.game_mode < 7) :
    stateVec (first :: rest) =
      some (specSimpleV1 first (first :: rest) ⟨first.game_mode, hm⟩) := by
  simp only [stateVec, specSimpleV1]
  rw [ballOwnedEncoding_eq_spec ho, eyeRow_eq_specGameMode first.game_mode hm]
  simp [List.map_map, Function.comp_def]

def recC4 : ObsRecord :=
  { left_team := [(0, 0), (1, 2)], left_team_direction := [(0, 1), (1, 0)],
    right_team := [(2, 2)], right_team_direction := [(1, 1)],
    ball := (0, 0, 0), ball_direction := (1, 0, 0),
    ball_owned_team := 0, game_mode := 3, active := 1 }

/-- C4 witness at a concrete two-player frame. -/
theorem simplev1_state_construction_witness :
    stateVec [recC4] = some (specSimpleV1 recC4 [recC4] ⟨3, by norm_num⟩) :=
  simplev1_state_construction recC4 [] (Or.inr (Or.inl rfl)) (by decide)

/-! ## Claim C10: state_space is installed on the class object -/

lemma dlookup_singleton (k k' : String) (v : AttrVal) :
    dlookup [(k, v)] k' = if k = k' then some v else none := by
  simp [dlookup, beq_iff_eq]

lemma dlookup_setAttr (l : List (String × AttrVal)) (k k' : String) (v : AttrVal) :
    dlookup (setAttr l k v) k' = if k = k' then some v else dlookup l k' := by
  unfold setAttr
  rw [dlookup_append, dlookup_singleton]
  by_cases h : k = k' <;> simp [h]

/-- C10: wrapping one environment with representation `"simplev1"` sets
`state_space` on the class object, so afterwards EVERY instance of the
class — also one built earlier, or built later with a different
representation — exposes the simplev1 `state_space` through attribute
lookup; only the `state` method is attached per-instance (the other
instance does not get it). -/
theorem state_space_class_leak (cls : ClassAttrs) (env other : EnvObj) (r2 : String)
    (hss : dlookup other.attrs "state_space" = none)
    (hstc : dlookup cls.attrs "state" = none)
    (hsto : dlookup other.attrs "state" = none)
    (hr2 : r2 ≠ "simplev1") :
    getAttrOf (applyStateWrappers cls env "simplev1").1 other "state_space" =
      some AttrVal.simplev1StateSpaceProp
    ∧ getAttrOf (applyStateWrappers (applyStateWrappers cls env "simplev1").1 other r2).1
        (applyStateWrappers (applyStateWrappers cls env "simplev1").1 other r2).2
        "state_space" = some AttrVal.simplev1StateSpaceProp
    ∧ getAttrOf (applyStateWrappers cls env "simplev1").1
        (applyStateWrappers cls env "simplev1").2 "state" =
        some AttrVal.simplev1StateMethod
    ∧ getAttrOf (applyStateWrappers cls env "simplev1").1 other "state" = none := by
  simp [applyStateWrappers, getAttrOf, dlookup_setAttr, hss, hstc, hsto, hr2]

/-- C10 witness: a fresh class, a simplev1-wrapped instance, and a
second instance wrapped with `"extracted"`: the second instance exposes
`state_space` but not `state`. -/
theorem state_space_class_leak_witness :
    getAttrOf (applyStateWrappers ⟨[]⟩ ⟨[]⟩ "simplev1").1 ⟨[]⟩ "state_space" =
      some AttrVal.simplev1StateSpaceProp
    ∧ getAttrOf (applyStateWrappers (applyStateWrappers ⟨[]⟩ ⟨[]⟩ "simplev1").1 ⟨[]⟩
        "extracted").1
        (applyStateWrappers (applyStateWrappers ⟨[]⟩ ⟨[]⟩ "simplev1").1 ⟨[]⟩
          "extracted").2
        "state_space" = some AttrVal.simplev1StateSpaceProp
    ∧ getAttrOf (applyStateWrappers ⟨[]⟩ ⟨[]⟩ "simplev1").1
        (applyStateWrappers ⟨[]⟩ ⟨[]⟩ "simplev1").2 "state" =
        some AttrVal.simplev1StateMethod
    ∧ getAttrOf (applyStateWrappers ⟨[]⟩ ⟨[]⟩ "simplev1").1 ⟨[]⟩ "state" = none :=
  state_space_class_leak ⟨[]⟩ ⟨[]⟩ ⟨[]⟩ "extracted" rfl rfl rfl (by decide)

end GFootball
